import Mathlib

/-!
# Todo list service: handlers over the `todos` table

A shallow embedding of `internal/handlers/todo_handler.go`.  Every handler is a
function from the decoded request and the database state to an HTTP response and
the database state afterwards.  The relational backend is modelled by a list of
rows together with the statements the handlers issue against it; a storage fault
is an explicit boolean handed to each storage call.
-/

namespace TodoApp

/-! ## Data model -/

/-- Server timestamps (`time.Time`), as ticks of the database clock. -/
abbrev Time := Nat

/-- The struct `Todo` of `todo_handler.go`, one row of the table `todos`. -/
structure Todo where
  ID : Int
  Name : String
  CreateTime : String
  Importance : Int
  Flag : Bool
  CreatedAt : Time
  UpdatedAt : Time
deriving DecidableEq

/-- The struct `CreateTodoRequest`; an absent JSON member decodes to the zero value. -/
structure CreateTodoRequest where
  Name : String
  CreateTime : String
  Importance : Int
deriving DecidableEq

/-- The struct `UpdateTodoRequest`; a nil pointer is `none`. -/
structure UpdateTodoRequest where
  Name : Option String
  CreateTime : Option String
  Importance : Option Int
  Flag : Option Bool
deriving DecidableEq

/-- The struct `ReorderRequest`; a nil slice (member absent or `null`) is `none`,
the JSON array `[]` decodes to the non-nil empty slice `some []`. -/
structure ReorderRequest where
  TodoIDs : Option (List Int)
deriving DecidableEq

/-! ## Go integers -/

/-- Smallest value of a Go `int` on a 64-bit platform. -/
def intMin : Int := -9223372036854775808

/-- Largest value of a Go `int` on a 64-bit platform. -/
def intMax : Int := 9223372036854775807

/-- Two's complement wrap-around of Go `int` arithmetic. -/
def wrapInt (x : Int) : Int := (x + 9223372036854775808) % 18446744073709551616 - 9223372036854775808

/-- Value of a non-empty run of ASCII decimal digits, most significant first. -/
def parseDigits : List Char → Nat → Option Nat
  | [], acc => some acc
  | c :: cs, acc =>
    if c.isDigit then parseDigits cs (acc * 10 + (c.toNat - 48)) else none

/-- The function `strconv.Atoi`: an optional sign, then at least one decimal digit,
and the value has to fit a Go `int`. -/
def Atoi (s : String) : Option Int :=
  let signed : Bool × List Char :=
    match s.data with
    | '-' :: cs => (true, cs)
    | '+' :: cs => (false, cs)
    | cs => (false, cs)
  match signed.2 with
  | [] => none
  | ds =>
    match parseDigits ds 0 with
    | none => none
    | some n =>
      let v : Int := if signed.1 then -(n : Int) else (n : Int)
      if intMin ≤ v ∧ v ≤ intMax then some v else none

/-! ## Request binding (`c.ShouldBindJSON` with the `binding` tags) -/

/-- A validation failure of a `binding` tag: the tag and the field it guards. -/
inductive BindError where
  | required (field : String)
  | max (field : String)
deriving DecidableEq

/-- Tags `binding:"required,max=500"` on `CreateTodoRequest.Name`: `required` rejects the
zero value, `max=500` rejects a string of more than 500 characters. -/
def CreateTodoRequest.bind (req : CreateTodoRequest) : Option BindError :=
  if req.Name.length = 0 then some (.required "Name")
  else if 500 < req.Name.length then some (.max "Name")
  else none

/-- Tag `binding:"required"` on `ReorderRequest.TodoIDs`: rejects the nil slice only. -/
def ReorderRequest.bind (req : ReorderRequest) : Option BindError :=
  match req.TodoIDs with
  | none => some (.required "TodoIDs")
  | some _ => none

/-! ## Responses -/

/-- JSON bodies handed to `c.JSON`. -/
inductive Body where
  | bindError (e : BindError)
  | error (msg : String)
  | message (msg : String)
  | todo (t : Todo)
  | todos (ts : List Todo)
deriving DecidableEq

/-- An HTTP response: status code and JSON body. -/
structure Response where
  status : Nat
  body : Body
deriving DecidableEq

/-! ## Statements and the storage model -/

/-- A bound statement argument (`interface{}`). -/
inductive Value where
  | str (s : String)
  | int (n : Int)
  | bool (b : Bool)
deriving DecidableEq

/-- The columns `UpdateTodo` may assign. -/
inductive Column where
  | name
  | create_time
  | importance
  | flag
deriving DecidableEq

/-- One element of `setParts`: the text `<column> = $<placeholder>`. -/
structure SetPart where
  col : Column
  placeholder : Nat
deriving DecidableEq

/-- Column name as written in the SQL text. -/
def Column.sql : Column → String
  | .name => "name"
  | .create_time => "create_time"
  | .importance => "importance"
  | .flag => "flag"

/-- The string appended to `setParts`. -/
def SetPart.sql (p : SetPart) : String :=
  p.col.sql ++ " = $" ++ toString p.placeholder

/-- The statements the handlers send to the database. -/
inductive Stmt where
  | selectTodos
  | selectMaxImportance
  | insertTodo (name createTime : String) (importance : Int)
  | updateTodo (sets : List SetPart) (whereID : Nat) (args : List Value)
  | deleteTodo (id : Int)
  | begin
  | setImportance (importance id : Int)
  | commit
  | rollback
deriving DecidableEq

/-- The text of the dynamic `UPDATE` built by `UpdateTodo`. -/
def updateQuery (sets : List SetPart) (whereID : Nat) : String :=
  "UPDATE todos SET " ++ ", ".intercalate (sets.map SetPart.sql) ++
    ", updated_at = NOW() WHERE id = $" ++ toString whereID ++
    " RETURNING id, name, create_time, importance, flag, created_at, updated_at"

/-- The database: the committed rows of `todos`, the next value of the `id` sequence and
the statements received so far.  Columns are taken wide enough for every Go value bound
to them; a statement the backend refuses for another reason is a storage fault. -/
structure DB where
  todos : List Todo
  nextID : Int
  log : List Stmt
deriving DecidableEq

/-- Record a statement as received. -/
def DB.issue (db : DB) (s : Stmt) : DB :=
  { db with log := db.log ++ [s] }

/-- Row order of `ORDER BY importance DESC, create_time ASC`: a row stands before another
when its importance is larger, or equal with a create_time not after the other's; the
text column create_time is compared character by character, by code point. -/
def before (a b : Todo) : Prop :=
  b.Importance < a.Importance ∨ (a.Importance = b.Importance ∧ a.CreateTime ≤ b.CreateTime)

instance : DecidableRel before := fun a b => by unfold before; infer_instance

instance : IsTotal Todo before := ⟨fun a b => by
  unfold before
  rcases lt_trichotomy a.Importance b.Importance with h | h | h
  · exact Or.inr (Or.inl h)
  · rcases le_total a.CreateTime b.CreateTime with hc | hc
    · exact Or.inl (Or.inr ⟨h, hc⟩)
    · exact Or.inr (Or.inr ⟨h.symm, hc⟩)
  · exact Or.inl (Or.inl h)⟩

instance : IsTrans Todo before := ⟨fun a b c hab hbc => by
  unfold before at *
  rcases hab with h1 | ⟨h1, h1c⟩ <;> rcases hbc with h2 | ⟨h2, h2c⟩
  · exact Or.inl (lt_trans h2 h1)
  · exact Or.inl (by omega)
  · exact Or.inl (by omega)
  · exact Or.inr ⟨by omega, le_trans h1c h2c⟩⟩

/-- Rows in the order of `ORDER BY importance DESC, create_time ASC`. -/
def orderBy (rows : List Todo) : List Todo :=
  rows.insertionSort before

/-- Execute `SELECT ... FROM todos ORDER BY importance DESC, create_time ASC`. -/
def DB.queryTodos (fail : Bool) (db : DB) : Option (List Todo) × DB :=
  let db1 := db.issue .selectTodos
  if fail then (none, db1) else (some (orderBy db1.todos), db1)

/-- The aggregate `COALESCE(MAX(importance), 0)`. -/
def maxImportance : List Todo → Int
  | [] => 0
  | t :: ts => (ts.map Todo.Importance).foldl max t.Importance

/-- Execute `SELECT COALESCE(MAX(importance), 0) FROM todos`. -/
def DB.queryMaxImportance (fail : Bool) (db : DB) : Option Int × DB :=
  let db1 := db.issue .selectMaxImportance
  if fail then (none, db1) else (some (maxImportance db1.todos), db1)

/-- Execute the `INSERT ... VALUES ($1, $2, $3, false) RETURNING ...`: the id comes from
the sequence, both timestamps from the database clock. -/
def DB.insertTodo (fail : Bool) (now : Time) (name createTime : String) (importance : Int)
    (db : DB) : Option Todo × DB :=
  let db1 := db.issue (.insertTodo name createTime importance)
  if fail then (none, db1) else
    let todo : Todo :=
      { ID := db1.nextID, Name := name, CreateTime := createTime, Importance := importance,
        Flag := false, CreatedAt := now, UpdatedAt := now }
    (some todo, { db1 with todos := db1.todos ++ [todo], nextID := db1.nextID + 1 })

/-- The argument bound to placeholder `$k` (placeholders count from 1). -/
def bindArg (args : List Value) (k : Nat) : Option Value :=
  if k = 0 then none else args.get? (k - 1)

/-- The effect of one assignment of the `SET` clause on a row; a missing argument or an
argument of the wrong type makes the statement fail. -/
def resolveSet (args : List Value) (p : SetPart) : Option (Todo → Todo) :=
  match p.col, bindArg args p.placeholder with
  | .name, some (.str s) => some fun t => { t with Name := s }
  | .create_time, some (.str s) => some fun t => { t with CreateTime := s }
  | .importance, some (.int n) => some fun t => { t with Importance := n }
  | .flag, some (.bool b) => some fun t => { t with Flag := b }
  | _, _ => none

/-- The effect of the whole `SET` clause, assignments applied left to right. -/
def resolveSets (args : List Value) : List SetPart → Option (Todo → Todo)
  | [] => some fun t => t
  | p :: ps =>
    match resolveSet args p, resolveSets args ps with
    | some f, some g => some fun t => g (f t)
    | _, _ => none

/-- Outcome of `QueryRow(...).Scan(...)` that is not a row. -/
inductive QueryErr where
  | noRows
  | failed
deriving DecidableEq

/-- Rewrite the rows matching `id` with `f`. -/
def updateWhere (id : Int) (f : Todo → Todo) (rows : List Todo) : List Todo :=
  rows.map fun t => if t.ID = id then f t else t

/-- Execute `UPDATE todos SET ..., updated_at = NOW() WHERE id = $n RETURNING ...` and scan
the first returned row. -/
def DB.queryUpdate (fail : Bool) (now : Time) (sets : List SetPart) (whereID : Nat)
    (args : List Value) (db : DB) : Except QueryErr Todo × DB :=
  let db1 := db.issue (.updateTodo sets whereID args)
  if fail then (.error .failed, db1) else
    match resolveSets args sets, bindArg args whereID with
    | some f, some (.int id) =>
      let rows := updateWhere id (fun t => { f t with UpdatedAt := now }) db1.todos
      match rows.find? (fun t => t.ID = id) with
      | none => (.error .noRows, { db1 with todos := rows })
      | some t => (.ok t, { db1 with todos := rows })
    | _, _ => (.error .failed, db1)

/-- Execute `DELETE FROM todos WHERE id = $1`; the result carries the rows affected. -/
def DB.execDelete (fail : Bool) (id : Int) (db : DB) : Option Nat × DB :=
  let db1 := db.issue (.deleteTodo id)
  if fail then (none, db1) else
    (some (db1.todos.filter fun t => t.ID = id).length,
      { db1 with todos := db1.todos.filter fun t => ¬ t.ID = id })

/-- An open transaction: the database it was begun on and the rows as the transaction
sees them. -/
structure Tx where
  db : DB
  pending : List Todo
deriving DecidableEq

/-- The call `db.Begin()`. -/
def DB.Begin (fail : Bool) (db : DB) : Option Tx × DB :=
  let db1 := db.issue .begin
  if fail then (none, db1) else (some { db := db1, pending := db1.todos }, db1)

/-- The call `tx.Exec("UPDATE todos SET importance = $1, updated_at = NOW() WHERE id = $2")`;
`false` is an error. -/
def Tx.Exec (fail : Bool) (now : Time) (importance id : Int) (tx : Tx) : Bool × Tx :=
  let tx1 : Tx := { tx with db := tx.db.issue (.setImportance importance id) }
  if fail then (false, tx1) else
    let rows :=
      updateWhere id (fun t => { t with Importance := importance, UpdatedAt := now }) tx1.pending
    (true, { tx1 with pending := rows })

/-- The call `tx.Commit()`; `false` is an error, and a failed commit installs nothing. -/
def Tx.Commit (fail : Bool) (tx : Tx) : Bool × DB :=
  let db1 := tx.db.issue .commit
  if fail then (false, db1) else (true, { db1 with todos := tx.pending })

/-- The deferred `tx.Rollback()` on a transaction that is still open. -/
def Tx.Rollback (tx : Tx) : DB :=
  tx.db.issue .rollback

/-! ## Handlers -/

/-- Storage faults of `GetTodos`: of the query, and of the `Scan` of each row read. -/
structure GetFaults where
  queryFails : Bool
  scanFails : Nat → Bool

/-- No storage call of `GetTodos` fails. -/
def GetFaults.none : GetFaults :=
  { queryFails := false, scanFails := fun _ => false }

/-- The loop `for rows.Next()` from row `i` on: each row is scanned and appended to
`todos`; `none` is a failed `Scan`. -/
def scanLoop (scanFails : Nat → Bool) : Nat → List Todo → List Todo → Option (List Todo)
  | _, [], todos => some todos
  | i, todo :: rest, todos =>
    if scanFails i then none else scanLoop scanFails (i + 1) rest (todos ++ [todo])

/-- Handler `GetTodos`. -/
def GetTodos (f : GetFaults) (db : DB) : Response × DB :=
  match db.queryTodos f.queryFails with
  | (none, db1) => (⟨500, .error "Failed to fetch todos"⟩, db1)
  | (some rows, db1) =>
    match scanLoop f.scanFails 0 rows [] with
    | none => (⟨500, .error "Failed to scan todo"⟩, db1)
    | some todos => (⟨200, .todos todos⟩, db1)

/-- Storage faults of the two statements of `CreateTodo`. -/
structure CreateFaults where
  maxFails : Bool
  insertFails : Bool

/-- Handler `CreateTodo`; `today` is `time.Now().Format("2006-01-02")`. -/
def CreateTodo (f : CreateFaults) (now : Time) (today : String) (req : CreateTodoRequest)
    (db : DB) : Response × DB :=
  match req.bind with
  | some e => (⟨400, .bindError e⟩, db)
  | none =>
    let createTime := if req.CreateTime = "" then today else req.CreateTime
    match db.queryMaxImportance f.maxFails with
    | (none, db1) => (⟨500, .error "Failed to get max importance"⟩, db1)
    | (some maxImp, db1) =>
      let importance := if req.Importance = 0 then wrapInt (maxImp + 1) else req.Importance
      match db1.insertTodo f.insertFails now req.Name createTime importance with
      | (none, db2) => (⟨500, .error "Failed to create todo"⟩, db2)
      | (some todo, db2) => (⟨201, .todo todo⟩, db2)

/-- The locals `setParts`, `args` and `argCount` of `UpdateTodo`. -/
structure UpdateBuilder where
  setParts : List SetPart
  args : List Value
  argCount : Nat
deriving DecidableEq

/-- One guarded block of the builder: append `<col> = $argCount` and the value, then
increment `argCount`; nothing happens for a nil pointer. -/
def UpdateBuilder.add (b : UpdateBuilder) (col : Column) : Option Value → UpdateBuilder
  | none => b
  | some v =>
    { setParts := b.setParts ++ [⟨col, b.argCount⟩], args := b.args ++ [v],
      argCount := b.argCount + 1 }

/-- The statement-building part of `UpdateTodo` (the four `if req.X != nil` blocks). -/
def buildUpdate (req : UpdateTodoRequest) : UpdateBuilder :=
  let b0 : UpdateBuilder := { setParts := [], args := [], argCount := 1 }
  let b1 := b0.add .name (req.Name.map .str)
  let b2 := b1.add .create_time (req.CreateTime.map .str)
  let b3 := b2.add .importance (req.Importance.map .int)
  b3.add .flag (req.Flag.map .bool)

/-- Handler `UpdateTodo`; `idParam` is `c.Param("id")`. -/
def UpdateTodo (fail : Bool) (now : Time) (idParam : String) (req : UpdateTodoRequest)
    (db : DB) : Response × DB :=
  match Atoi idParam with
  | none => (⟨400, .error "Invalid todo ID"⟩, db)
  | some id =>
    let b := buildUpdate req
    if b.setParts.length = 0 then (⟨400, .error "No fields to update"⟩, db)
    else
      let args := b.args ++ [.int id]
      match db.queryUpdate fail now b.setParts b.argCount args with
      | (.error .noRows, db1) => (⟨404, .error "Todo not found"⟩, db1)
      | (.error .failed, db1) => (⟨500, .error "Failed to update todo"⟩, db1)
      | (.ok todo, db1) => (⟨200, .todo todo⟩, db1)

/-- Handler `DeleteTodo`. -/
def DeleteTodo (fail : Bool) (idParam : String) (db : DB) : Response × DB :=
  match Atoi idParam with
  | none => (⟨400, .error "Invalid todo ID"⟩, db)
  | some id =>
    match db.execDelete fail id with
    | (none, db1) => (⟨500, .error "Failed to delete todo"⟩, db1)
    | (some rowsAffected, db1) =>
      if rowsAffected = 0 then (⟨404, .error "Todo not found"⟩, db1)
      else (⟨200, .message "Todo deleted successfully"⟩, db1)

/-- Storage faults of `ReorderTodos`: of `Begin`, of the `Exec` at each position of the
loop, and of `Commit`. -/
structure ReorderFaults where
  beginFails : Bool
  execFails : Nat → Bool
  commitFails : Bool

/-- The loop `for i, todoID := range req.TodoIDs` from position `i` on, where `len` is
`len(req.TodoIDs)`; an error carries the transaction as the failing `Exec` left it. -/
def reorderLoop (execFails : Nat → Bool) (now : Time) (len : Nat) :
    Nat → List Int → Tx → Except Tx Tx
  | _, [], tx => .ok tx
  | i, todoID :: rest, tx =>
    let importance : Int := (len : Int) - (i : Int)
    match tx.Exec (execFails i) now importance todoID with
    | (false, tx1) => .error tx1
    | (true, tx1) => reorderLoop execFails now len (i + 1) rest tx1

/-- Handler `ReorderTodos`; the deferred `tx.Rollback()` acts on the exit out of the loop
only, since after `Commit` the transaction is finished. -/
def ReorderTodos (f : ReorderFaults) (now : Time) (req : ReorderRequest) (db : DB) :
    Response × DB :=
  match req.bind with
  | some e => (⟨400, .bindError e⟩, db)
  | none =>
    let todoIDs := req.TodoIDs.getD []
    match db.Begin f.beginFails with
    | (none, db1) => (⟨500, .error "Failed to start transaction"⟩, db1)
    | (some tx, _) =>
      match reorderLoop f.execFails now todoIDs.length 0 todoIDs tx with
      | .error tx1 => (⟨500, .error "Failed to reorder todos"⟩, tx1.Rollback)
      | .ok tx1 =>
        match tx1.Commit f.commitFails with
        | (false, db2) => (⟨500, .error "Failed to commit transaction"⟩, db2)
        | (true, db2) => (⟨200, .message "Todos reordered successfully"⟩, db2)

/-- No storage call of `ReorderTodos` fails. -/
def ReorderFaults.none : ReorderFaults :=
  { beginFails := false, execFails := fun _ => false, commitFails := false }

/-! ## Summaries used in the statements -/

/-- What the loop of `ReorderTodos` does to a single row, from position `i` on. -/
def reorderRow (now : Time) (len : Nat) : Nat → List Int → Todo → Todo
  | _, [], t => t
  | i, todoID :: rest, t =>
    reorderRow now len (i + 1) rest
      (if t.ID = todoID then { t with Importance := (len : Int) - (i : Int), UpdatedAt := now }
       else t)

/-- The statements the loop of `ReorderTodos` sends, from position `i` on. -/
def reorderStmts (len : Nat) : Nat → List Int → List Stmt
  | _, [] => []
  | i, todoID :: rest =>
    Stmt.setImportance ((len : Int) - (i : Int)) todoID :: reorderStmts len (i + 1) rest

/-- The values `UpdateTodo` writes into a row: the supplied fields replaced, the other
columns kept, `updated_at` set to the database clock. -/
def patch (req : UpdateTodoRequest) (now : Time) (t : Todo) : Todo :=
  { ID := t.ID, Name := req.Name.getD t.Name, CreateTime := req.CreateTime.getD t.CreateTime,
    Importance := req.Importance.getD t.Importance, Flag := req.Flag.getD t.Flag,
    CreatedAt := t.CreatedAt, UpdatedAt := now }

/-- The fields present in an update request with their values, in the order name,
create_time, importance, flag. -/
def UpdateTodoRequest.supplied (req : UpdateTodoRequest) : List (Column × Value) :=
  (req.Name.map fun v => (Column.name, Value.str v)).toList ++
  (req.CreateTime.map fun v => (Column.create_time, Value.str v)).toList ++
  (req.Importance.map fun v => (Column.importance, Value.int v)).toList ++
  (req.Flag.map fun v => (Column.flag, Value.bool v)).toList


/-! ## Auxiliary facts about the storage model -/

/-- The SQL text of an update of name and flag. -/
theorem updateQuery_name_flag :
    updateQuery (buildUpdate ⟨some "B", none, none, some true⟩).setParts
        (buildUpdate ⟨some "B", none, none, some true⟩).argCount =
      "UPDATE todos SET name = $1, flag = $2, updated_at = NOW() WHERE id = $3 RETURNING id, name, create_time, importance, flag, created_at, updated_at" := by
  decide

theorem scanLoop_ok (rows : List Todo) :
    ∀ (i : Nat) (todos : List Todo),
      scanLoop (fun _ => false) i rows todos = some (todos ++ rows) := by
  induction rows with
  | nil => intro i todos; simp [scanLoop]
  | cons r rs ih => intro i todos; simp [scanLoop, ih]

theorem orderBy_perm (rows : List Todo) : (orderBy rows).Perm rows :=
  List.perm_insertionSort before rows

theorem orderBy_sorted (rows : List Todo) : (orderBy rows).Pairwise before :=
  List.sorted_insertionSort before rows

theorem reorderLoop_ok (now : Time) (len : Nat) (ids : List Int) :
    ∀ (i : Nat) (tx : Tx),
      reorderLoop (fun _ => false) now len i ids tx =
        .ok { db := { tx.db with log := tx.db.log ++ reorderStmts len i ids },
              pending := tx.pending.map (reorderRow now len i ids) } := by
  induction ids with
  | nil => intro i tx; simp [reorderLoop, reorderRow, reorderStmts]
  | cons x xs ih =>
    intro i tx
    simp only [reorderLoop, Tx.Exec, Bool.false_eq_true, if_false, ih, reorderStmts, reorderRow,
      DB.issue, updateWhere, List.map_map]
    simp [Function.comp_def]

theorem reorderRow_frame (now : Time) (len : Nat) (ids : List Int) :
    ∀ (i : Nat) (t : Todo),
      (reorderRow now len i ids t).ID = t.ID ∧ (reorderRow now len i ids t).Name = t.Name ∧
      (reorderRow now len i ids t).CreateTime = t.CreateTime ∧
      (reorderRow now len i ids t).Flag = t.Flag ∧
      (reorderRow now len i ids t).CreatedAt = t.CreatedAt := by
  induction ids with
  | nil => intro i t; simp [reorderRow]
  | cons x xs ih =>
    intro i t
    simp only [reorderRow]
    split <;> simp [ih]

theorem reorderRow_not_mem (now : Time) (len : Nat) (ids : List Int) :
    ∀ (i : Nat) (t : Todo), t.ID ∉ ids → reorderRow now len i ids t = t := by
  induction ids with
  | nil => intro i t _; simp [reorderRow]
  | cons x xs ih =>
    intro i t h
    simp only [List.mem_cons, not_or] at h
    simp only [reorderRow, h.1, if_false]
    exact ih (i + 1) t h.2

theorem reorderRow_last (now : Time) (len : Nat) (ids : List Int) :
    ∀ (i k : Nat) (t : Todo) (hk : k < ids.length),
      ids.get ⟨k, hk⟩ = t.ID → t.ID ∉ ids.drop (k + 1) →
      (reorderRow now len i ids t).Importance = (len : Int) - ((i + k : Nat) : Int) := by
  induction ids with
  | nil => intro i k t hk; simp at hk
  | cons x xs ih =>
    intro i k t hk hget hlater
    cases k with
    | zero =>
      simp only [List.get_eq_getElem, List.getElem_cons_zero] at hget
      simp only [zero_add, List.drop_succ_cons, List.drop_zero] at hlater
      simp only [reorderRow, hget, if_true]
      rw [reorderRow_not_mem now len xs (i + 1) _ (by simpa using hlater)]
      simp
    | succ k =>
      simp only [List.get_eq_getElem, List.getElem_cons_succ] at hget
      simp only [List.drop_succ_cons] at hlater
      have hk2 : k < xs.length := by simpa using hk
      simp only [reorderRow]
      split
      · rw [ih (i + 1) k _ hk2 (by simpa using hget) (by simpa using hlater)]
        congr 2; omega
      · rw [ih (i + 1) k _ hk2 (by simpa using hget) hlater]
        congr 2; omega

theorem ReorderTodos_ok (now : Time) (ids : List Int) (db : DB) :
    ReorderTodos ReorderFaults.none now ⟨some ids⟩ db =
      (⟨200, .message "Todos reordered successfully"⟩,
        { todos := db.todos.map (reorderRow now ids.length 0 ids),
          nextID := db.nextID,
          log := db.log ++ [Stmt.begin] ++ reorderStmts ids.length 0 ids ++ [Stmt.commit] }) := by
  simp [ReorderTodos, ReorderRequest.bind, ReorderFaults.none, DB.Begin, reorderLoop_ok,
    Tx.Commit, DB.issue]

theorem reorderStmts_eq_enumFrom (len : Nat) (ids : List Int) :
    ∀ i : Nat, reorderStmts len i ids =
      (ids.enumFrom i).map fun p => Stmt.setImportance ((len : Int) - (p.1 : Int)) p.2 := by
  induction ids with
  | nil => intro i; simp [reorderStmts]
  | cons x xs ih => intro i; simp [reorderStmts, ih]

theorem reorderLoop_error_at (execFails : Nat → Bool) (now : Time) (len : Nat) (ids : List Int) :
    ∀ (i k : Nat) (tx : Tx), k < ids.length → (∀ j < k, execFails (i + j) = false) →
      execFails (i + k) = true →
      ∃ tx1, reorderLoop execFails now len i ids tx = .error tx1 ∧
        tx1.db.todos = tx.db.todos := by
  induction ids with
  | nil => intro i k tx hk; simp at hk
  | cons x xs ih =>
    intro i k tx hk hlt hat
    cases k with
    | zero =>
      simp only [add_zero] at hat
      refine ⟨{ tx with db := tx.db.issue (.setImportance ((len : Int) - (i : Int)) x) }, ?_, ?_⟩
      · simp [reorderLoop, Tx.Exec, hat]
      · simp [DB.issue]
    | succ k =>
      have h0 : execFails i = false := by simpa using hlt 0 (by omega)
      obtain ⟨tx1, h1, h2⟩ := ih (i + 1) k
        { tx with
          db := tx.db.issue (.setImportance ((len : Int) - (i : Int)) x),
          pending := updateWhere x
            (fun t => { t with Importance := (len : Int) - (i : Int), UpdatedAt := now })
            tx.pending }
        (by simpa using hk)
        (fun j hj => by have := hlt (j + 1) (by omega); rwa [show i + 1 + j = i + (j + 1) by omega])
        (by rwa [show i + 1 + k = i + (k + 1) by omega])
      refine ⟨tx1, ?_, ?_⟩
      · simp only [reorderLoop, Tx.Exec, h0, Bool.false_eq_true, if_false]
        exact h1
      · rw [h2]; simp [DB.issue]

theorem reorderLoop_ok_of (execFails : Nat → Bool) (now : Time) (len : Nat) (ids : List Int) :
    ∀ (i : Nat) (tx : Tx), (∀ j < ids.length, execFails (i + j) = false) →
      ∃ tx1, reorderLoop execFails now len i ids tx = .ok tx1 ∧
        tx1.db.todos = tx.db.todos := by
  induction ids with
  | nil => intro i tx _; exact ⟨tx, by simp [reorderLoop], rfl⟩
  | cons x xs ih =>
    intro i tx hlt
    have h0 : execFails i = false := by simpa using hlt 0 (by simp)
    obtain ⟨tx1, h1, h2⟩ := ih (i + 1)
      { tx with
        db := tx.db.issue (.setImportance ((len : Int) - (i : Int)) x),
        pending := updateWhere x
          (fun t => { t with Importance := (len : Int) - (i : Int), UpdatedAt := now })
          tx.pending }
      (fun j hj => by
        have := hlt (j + 1) (by simpa using hj)
        rwa [show i + 1 + j = i + (j + 1) by omega])
    refine ⟨tx1, ?_, ?_⟩
    · simp only [reorderLoop, Tx.Exec, h0, Bool.false_eq_true, if_false]
      exact h1
    · rw [h2]; simp [DB.issue]

theorem nodup_get_not_mem_drop :
    ∀ (ids : List Int) (k : Nat) (hk : k < ids.length), ids.Nodup →
      ids.get ⟨k, hk⟩ ∉ ids.drop (k + 1) := by
  intro ids
  induction ids with
  | nil => intro k hk; simp at hk
  | cons x xs ih =>
    intro k hk hd
    rw [List.nodup_cons] at hd
    cases k with
    | zero => simpa using hd.1
    | succ k => simpa using ih k (by simpa using hk) hd.2

theorem before_importance_le {a b : Todo} (h : before a b) : b.Importance ≤ a.Importance := by
  unfold before at h
  rcases h with h | ⟨h, _⟩ <;> omega

/-- A listing in `ORDER BY` order whose rows carry importance `n - i` at the id of
position `i` shows the ids of a duplicate-free sequence in the order of the sequence. -/
theorem listing_follows_sequence (ids : List Int) (l : List Todo) (n : Nat)
    (hd : ids.Nodup) (hnd : (l.map Todo.ID).Nodup) (hex : ∀ id ∈ ids, id ∈ l.map Todo.ID)
    (himp : ∀ t ∈ l, ∀ (i : Nat) (hi : i < ids.length), ids.get ⟨i, hi⟩ = t.ID →
      t.Importance = (n : Int) - (i : Int))
    (hs : l.Pairwise before) :
    (l.map Todo.ID).filter (fun id => decide (id ∈ ids)) = ids := by
  let r : Int → Int → Prop := fun x y =>
    ∃ (i j : Nat) (hi : i < ids.length) (hj : j < ids.length),
      i ≤ j ∧ ids.get ⟨i, hi⟩ = x ∧ ids.get ⟨j, hj⟩ = y
  haveI : IsAntisymm Int r := ⟨by
    rintro x y ⟨i, j, hi, hj, hij, hx, hy⟩ ⟨i2, j2, hi2, hj2, hij2, hx2, hy2⟩
    have e1 : i = j2 := by
      have := (List.Nodup.get_inj_iff hd (i := ⟨i, hi⟩) (j := ⟨j2, hj2⟩)).1 (hx.trans hy2.symm)
      simpa using this
    have e2 : j = i2 := by
      have := (List.Nodup.get_inj_iff hd (i := ⟨j, hj⟩) (j := ⟨i2, hi2⟩)).1 (hy.trans hx2.symm)
      simpa using this
    have e3 : i = j := by omega
    subst e3
    exact hx.symm.trans hy⟩
  have hperm : ((l.map Todo.ID).filter (fun id => decide (id ∈ ids))).Perm ids := by
    rw [List.perm_ext_iff_of_nodup (hnd.filter _) hd]
    intro a
    simp only [List.mem_filter, decide_eq_true_eq]
    exact ⟨fun h => h.2, fun h => ⟨hex a h, h⟩⟩
  have hs1 : ((l.map Todo.ID).filter (fun id => decide (id ∈ ids))).Sorted r := by
    have h1 : (l.filter (fun t => decide (t.ID ∈ ids))).Pairwise before := hs.filter _
    have h2 : (l.filter (fun t => decide (t.ID ∈ ids))).Pairwise (fun a b => r a.ID b.ID) := by
      refine h1.imp_of_mem ?_
      intro a b ha hb hab
      simp only [List.mem_filter, decide_eq_true_eq] at ha hb
      obtain ⟨⟨i, hi⟩, hia⟩ := List.mem_iff_get.1 ha.2
      obtain ⟨⟨j, hj⟩, hjb⟩ := List.mem_iff_get.1 hb.2
      have ea := himp a ha.1 i hi hia
      have eb := himp b hb.1 j hj hjb
      have hle := before_importance_le hab
      exact ⟨i, j, hi, hj, by omega, hia, hjb⟩
    have h3 : (l.map Todo.ID).filter (fun id => decide (id ∈ ids)) =
        (l.filter (fun t => decide (t.ID ∈ ids))).map Todo.ID := by
      rw [List.filter_map]; rfl
    rw [h3]
    exact List.pairwise_map.2 h2
  have hs2 : ids.Sorted r := by
    refine List.pairwise_iff_get.2 ?_
    intro i j hij
    exact ⟨i.1, j.1, i.2, j.2, Nat.le_of_lt hij, rfl, rfl⟩
  exact List.eq_of_perm_of_sorted hperm hs1 hs2

theorem foldl_max_ge (l : List Int) :
    ∀ init : Int, init ≤ l.foldl max init ∧ ∀ x ∈ l, x ≤ l.foldl max init := by
  induction l with
  | nil => intro init; simp
  | cons y ys ih =>
    intro init
    obtain ⟨h1, h2⟩ := ih (max init y)
    refine ⟨le_trans (le_max_left _ _) h1, ?_⟩
    intro x hx
    rcases List.mem_cons.1 hx with rfl | hx
    · exact le_trans (le_max_right _ _) h1
    · exact h2 x hx

theorem foldl_max_mem (l : List Int) :
    ∀ init : Int, l.foldl max init = init ∨ l.foldl max init ∈ l := by
  induction l with
  | nil => intro init; simp
  | cons y ys ih =>
    intro init
    rcases ih (max init y) with h | h
    · rcases max_choice init y with e | e
      · left; rw [List.foldl_cons, h]; exact e
      · right; rw [List.foldl_cons, h, e]; exact List.mem_cons_self _ _
    · right; exact List.mem_cons_of_mem _ h

theorem maxImportance_ge (rows : List Todo) :
    ∀ r ∈ rows, r.Importance ≤ maxImportance rows := by
  cases rows with
  | nil => intro r hr; simp at hr
  | cons t ts =>
    intro r hr
    obtain ⟨h1, h2⟩ := foldl_max_ge (ts.map Todo.Importance) t.Importance
    rcases List.mem_cons.1 hr with rfl | hr
    · exact h1
    · exact h2 _ (List.mem_map.2 ⟨r, hr, rfl⟩)

theorem maxImportance_attained (rows : List Todo) (hne : rows ≠ []) :
    ∃ r ∈ rows, r.Importance = maxImportance rows := by
  cases rows with
  | nil => exact absurd rfl hne
  | cons t ts =>
    rcases foldl_max_mem (ts.map Todo.Importance) t.Importance with h | h
    · exact ⟨t, List.mem_cons_self _ _, h.symm⟩
    · obtain ⟨r, hr, e⟩ := List.mem_map.1 h
      exact ⟨r, List.mem_cons_of_mem _ hr, e⟩

theorem wrapInt_of_fits (x : Int) (h1 : intMin ≤ x) (h2 : x ≤ intMax) : wrapInt x = x := by
  unfold wrapInt
  unfold intMin at h1
  unfold intMax at h2
  omega

theorem updateWhere_none (id : Int) (f : Todo → Todo) (rows : List Todo)
    (h : ∀ t ∈ rows, t.ID ≠ id) : updateWhere id f rows = rows := by
  unfold updateWhere
  conv_rhs => rw [← List.map_id rows]
  exact List.map_congr_left fun t ht => by simp [h t ht]

theorem find_updateWhere (id : Int) (f : Todo → Todo) (hf : ∀ t, (f t).ID = t.ID) :
    ∀ rows : List Todo,
      (updateWhere id f rows).find? (fun t => decide (t.ID = id)) =
        (rows.find? (fun t => decide (t.ID = id))).map f := by
  intro rows
  induction rows with
  | nil => simp [updateWhere]
  | cons r rs ih =>
    unfold updateWhere at ih ⊢
    by_cases h : r.ID = id
    · simp [List.find?_cons, h, hf]
    · simp [List.find?_cons, h, ih]

theorem find_none_iff (id : Int) (rows : List Todo) :
    rows.find? (fun t => decide (t.ID = id)) = none ↔ ∀ t ∈ rows, t.ID ≠ id := by
  simp [List.find?_eq_none]

theorem buildUpdate_supplied (req : UpdateTodoRequest) :
    (buildUpdate req).setParts = req.supplied.enum.map (fun p => ⟨p.2.1, p.1 + 1⟩) ∧
      (buildUpdate req).args = req.supplied.map Prod.snd ∧
      (buildUpdate req).argCount = req.supplied.length + 1 := by
  obtain ⟨n, c, i, fl⟩ := req
  cases n <;> cases c <;> cases i <;> cases fl <;> exact ⟨rfl, rfl, rfl⟩

theorem buildUpdate_resolve (req : UpdateTodoRequest) (id : Int) :
    resolveSets ((buildUpdate req).args ++ [.int id]) (buildUpdate req).setParts =
        some (fun t => { patch req t.UpdatedAt t with }) ∧
      bindArg ((buildUpdate req).args ++ [.int id]) (buildUpdate req).argCount =
        some (.int id) := by
  obtain ⟨n, c, i, fl⟩ := req
  cases n <;> cases c <;> cases i <;> cases fl <;> exact ⟨rfl, rfl⟩

theorem buildUpdate_empty_iff (req : UpdateTodoRequest) :
    (buildUpdate req).setParts.length = 0 ↔
      (req.Name = none ∧ req.CreateTime = none ∧ req.Importance = none ∧ req.Flag = none) := by
  obtain ⟨n, c, i, fl⟩ := req
  cases n <;> cases c <;> cases i <;> cases fl <;>
    simp [buildUpdate, UpdateBuilder.add]

/-- The result of `UpdateTodo` once the id parses, a field is supplied and the statement
meets no storage fault. -/
theorem UpdateTodo_run (now : Time) (idParam : String) (id : Int) (req : UpdateTodoRequest)
    (db : DB) (hid : Atoi idParam = some id) (hne : (buildUpdate req).setParts.length ≠ 0) :
    UpdateTodo false now idParam req db =
      match db.todos.find? (fun t => decide (t.ID = id)) with
      | none =>
        (⟨404, .error "Todo not found"⟩,
          { todos := updateWhere id (patch req now) db.todos, nextID := db.nextID,
            log := db.log ++ [Stmt.updateTodo (buildUpdate req).setParts
              (buildUpdate req).argCount ((buildUpdate req).args ++ [.int id])] })
      | some t0 =>
        (⟨200, .todo (patch req now t0)⟩,
          { todos := updateWhere id (patch req now) db.todos, nextID := db.nextID,
            log := db.log ++ [Stmt.updateTodo (buildUpdate req).setParts
              (buildUpdate req).argCount ((buildUpdate req).args ++ [.int id])] }) := by
  obtain ⟨h1, h2⟩ := buildUpdate_resolve req id
  have hf := find_updateWhere id (patch req now) (fun _ => rfl) db.todos
  simp only [UpdateTodo, hid, hne, if_false, DB.queryUpdate, Bool.false_eq_true, h1, h2,
    DB.issue]
  have hp : (fun t : Todo => ({ patch req t.UpdatedAt t with UpdatedAt := now } : Todo)) =
      patch req now := rfl
  rw [hp, hf]
  cases db.todos.find? (fun t => decide (t.ID = id)) <;> rfl

/-! ## Reorder -/

/-- C1, amended: with no storage error `ReorderTodos` answers 200 with the confirmation
message, the statement sent for position `i` assigns importance `n - i` to `todo_ids[i]`
(so the values run from `n` down to `1` without gaps), and afterwards every stored row
whose id is `todo_ids[i]` has importance `n - i` for each position `i` whose id does not
occur again at a later position of the sequence. -/
theorem reorderTodos_rank_assignment (now : Time) (ids : List Int) (db : DB) :
    (ReorderTodos ReorderFaults.none now ⟨some ids⟩ db).1 =
        ⟨200, .message "Todos reordered successfully"⟩ ∧
      (ReorderTodos ReorderFaults.none now ⟨some ids⟩ db).2.log =
        db.log ++ [Stmt.begin] ++
          (ids.enum.map fun p => Stmt.setImportance ((ids.length : Int) - (p.1 : Int)) p.2) ++
          [Stmt.commit] ∧
      ∀ (i : Nat) (hi : i < ids.length), ids.get ⟨i, hi⟩ ∉ ids.drop (i + 1) →
        ∀ t ∈ (ReorderTodos ReorderFaults.none now ⟨some ids⟩ db).2.todos,
          t.ID = ids.get ⟨i, hi⟩ → t.Importance = (ids.length : Int) - (i : Int) := by
  rw [ReorderTodos_ok]
  refine ⟨rfl, ?_, ?_⟩
  · simp [reorderStmts_eq_enumFrom, List.enum]
  · intro i hi hlater t ht hid
    simp only [List.mem_map] at ht
    obtain ⟨t0, _, rfl⟩ := ht
    have hfr := (reorderRow_frame now ids.length ids 0 t0).1
    rw [hfr] at hid
    have := reorderRow_last now ids.length ids 0 i t0 hi hid.symm (by rw [hid]; exact hlater)
    simpa using this

/-- C1 as stated fails when an id is repeated: on the table holding the single row 1,
`ReorderTodos` with `todo_ids = [1, 1]` leaves row 1 with importance 1, while position 0
would require importance 2. -/
theorem reorderTodos_rank_repeated_id :
    ¬ ∀ (i : Nat) (hi : i < [(1 : Int), 1].length),
        ∀ t ∈ (ReorderTodos ReorderFaults.none 9 ⟨some [1, 1]⟩
                ⟨[⟨1, "a", "2024-01-01", 5, false, 0, 0⟩], 2, []⟩).2.todos,
          t.ID = [(1 : Int), 1].get ⟨i, hi⟩ →
            t.Importance = (([(1 : Int), 1].length : Nat) : Int) - (i : Int) := by
  intro h
  have h0 := h 0 (by decide) ⟨1, "a", "2024-01-01", 1, false, 0, 9⟩ (by decide) (by decide)
  revert h0
  decide

/-- Witness for C1: after `reorder [3, 1, 2]` on the rows 1, 2, 3 the answer is 200 and the
row with id 3, the first of the sequence, has importance 3. -/
theorem reorderTodos_rank_assignment_witness :
    (ReorderTodos ReorderFaults.none 9 ⟨some [3, 1, 2]⟩
        ⟨[⟨1, "a", "2024-01-01", 5, false, 0, 0⟩, ⟨2, "b", "2024-01-02", 7, false, 0, 0⟩,
          ⟨3, "c", "2024-01-03", 1, false, 0, 0⟩], 4, []⟩).1 =
        ⟨200, .message "Todos reordered successfully"⟩ ∧
      ∀ t ∈ (ReorderTodos ReorderFaults.none 9 ⟨some [3, 1, 2]⟩
        ⟨[⟨1, "a", "2024-01-01", 5, false, 0, 0⟩, ⟨2, "b", "2024-01-02", 7, false, 0, 0⟩,
          ⟨3, "c", "2024-01-03", 1, false, 0, 0⟩], 4, []⟩).2.todos,
        t.ID = 3 → t.Importance = 3 :=
  ⟨(reorderTodos_rank_assignment 9 [3, 1, 2]
      ⟨[⟨1, "a", "2024-01-01", 5, false, 0, 0⟩, ⟨2, "b", "2024-01-02", 7, false, 0, 0⟩,
        ⟨3, "c", "2024-01-03", 1, false, 0, 0⟩], 4, []⟩).1,
    fun t ht e =>
      (reorderTodos_rank_assignment 9 [3, 1, 2]
        ⟨[⟨1, "a", "2024-01-01", 5, false, 0, 0⟩, ⟨2, "b", "2024-01-02", 7, false, 0, 0⟩,
          ⟨3, "c", "2024-01-03", 1, false, 0, 0⟩], 4, []⟩).2.2 0 (by decide) (by decide) t ht e⟩

/-- C2: when `Begin` succeeds and either the `Exec` at some position `k` fails after the
ones before it succeeded, or every `Exec` succeeds and `Commit` fails, `ReorderTodos`
answers 500 and the committed rows are exactly the rows before the call. -/
theorem reorderTodos_atomic (f : ReorderFaults) (now : Time) (ids : List Int) (db : DB)
    (k : Nat) (hb : f.beginFails = false)
    (h : (k < ids.length ∧ (∀ j < k, f.execFails j = false) ∧ f.execFails k = true) ∨
         ((∀ j < ids.length, f.execFails j = false) ∧ f.commitFails = true)) :
    (ReorderTodos f now ⟨some ids⟩ db).1.status = 500 ∧
      (ReorderTodos f now ⟨some ids⟩ db).2.todos = db.todos := by
  rcases h with ⟨hk, hlt, hat⟩ | ⟨hall, hc⟩
  · obtain ⟨tx1, h1, h2⟩ := reorderLoop_error_at f.execFails now ids.length ids 0 k
      { db := db.issue .begin, pending := (db.issue .begin).todos } hk
      (fun j hj => by simpa using hlt j hj) (by simpa using hat)
    simp only [ReorderTodos, ReorderRequest.bind, Option.getD, DB.Begin, hb, Bool.false_eq_true,
      if_false, h1]
    exact ⟨trivial, by simp [Tx.Rollback, DB.issue, h2]⟩
  · obtain ⟨tx1, h1, h2⟩ := reorderLoop_ok_of f.execFails now ids.length ids 0
      { db := db.issue .begin, pending := (db.issue .begin).todos }
      (fun j hj => by simpa using hall j hj)
    simp only [ReorderTodos, ReorderRequest.bind, Option.getD, DB.Begin, hb, Bool.false_eq_true,
      if_false, h1, Tx.Commit, hc, if_true]
    exact ⟨trivial, by simp [DB.issue, h2]⟩

/-- Witness for C2: on three rows, the second `Exec` of `reorder [3, 1, 2]` fails. -/
theorem reorderTodos_atomic_witness :
    (ReorderTodos ⟨false, fun j => decide (j = 1), false⟩ 9 ⟨some [3, 1, 2]⟩
        ⟨[⟨1, "a", "2024-01-01", 5, false, 0, 0⟩, ⟨2, "b", "2024-01-02", 7, false, 0, 0⟩,
          ⟨3, "c", "2024-01-03", 1, false, 0, 0⟩], 4, []⟩).1.status = 500 ∧
      (ReorderTodos ⟨false, fun j => decide (j = 1), false⟩ 9 ⟨some [3, 1, 2]⟩
        ⟨[⟨1, "a", "2024-01-01", 5, false, 0, 0⟩, ⟨2, "b", "2024-01-02", 7, false, 0, 0⟩,
          ⟨3, "c", "2024-01-03", 1, false, 0, 0⟩], 4, []⟩).2.todos =
        [⟨1, "a", "2024-01-01", 5, false, 0, 0⟩, ⟨2, "b", "2024-01-02", 7, false, 0, 0⟩,
          ⟨3, "c", "2024-01-03", 1, false, 0, 0⟩] :=
  reorderTodos_atomic ⟨false, fun j => decide (j = 1), false⟩ 9 [3, 1, 2] _ 1 rfl
    (Or.inl ⟨by decide, by decide, by decide⟩)

/-- C7: with no storage error `ReorderTodos` answers 200 with the confirmation message for
every sequence; the table keeps its rows position by position, each row keeps id, name,
create_time, flag and created_at, a row whose id is not in the sequence is unchanged, and
a sequence matching no row leaves the table as it was. -/
theorem reorderTodos_frame (now : Time) (ids : List Int) (db : DB) :
    (ReorderTodos ReorderFaults.none now ⟨some ids⟩ db).1 =
        ⟨200, .message "Todos reordered successfully"⟩ ∧
      (ReorderTodos ReorderFaults.none now ⟨some ids⟩ db).2.todos.length = db.todos.length ∧
      List.Forall₂
        (fun old new : Todo =>
          new.ID = old.ID ∧ new.Name = old.Name ∧ new.CreateTime = old.CreateTime ∧
          new.Flag = old.Flag ∧ new.CreatedAt = old.CreatedAt ∧ (old.ID ∉ ids → new = old))
        db.todos (ReorderTodos ReorderFaults.none now ⟨some ids⟩ db).2.todos ∧
      ((∀ t ∈ db.todos, t.ID ∉ ids) →
        (ReorderTodos ReorderFaults.none now ⟨some ids⟩ db).2.todos = db.todos) := by
  rw [ReorderTodos_ok]
  refine ⟨rfl, by simp, ?_, ?_⟩
  · rw [List.forall₂_map_right_iff, List.forall₂_same]
    intro t _
    obtain ⟨h1, h2, h3, h4, h5⟩ := reorderRow_frame now ids.length ids 0 t
    exact ⟨h1, h2, h3, h4, h5, reorderRow_not_mem now ids.length ids 0 t⟩
  · intro h
    show db.todos.map (reorderRow now ids.length 0 ids) = db.todos
    conv_rhs => rw [← List.map_id db.todos]
    exact List.map_congr_left fun t ht => reorderRow_not_mem now ids.length ids 0 t (h t ht)

/-- Witness for C7: a sequence of two unknown ids leaves the rows 1 and 2 as they were. -/
theorem reorderTodos_frame_witness :
    (ReorderTodos ReorderFaults.none 9 ⟨some [8, 9]⟩
        ⟨[⟨1, "a", "2024-01-01", 5, false, 0, 0⟩, ⟨2, "b", "2024-01-02", 7, false, 0, 0⟩],
          3, []⟩).2.todos =
      [⟨1, "a", "2024-01-01", 5, false, 0, 0⟩, ⟨2, "b", "2024-01-02", 7, false, 0, 0⟩] :=
  (reorderTodos_frame 9 [8, 9]
    ⟨[⟨1, "a", "2024-01-01", 5, false, 0, 0⟩, ⟨2, "b", "2024-01-02", 7, false, 0, 0⟩],
      3, []⟩).2.2.2 (by decide)

theorem GetTodos_ok (db : DB) :
    GetTodos GetFaults.none db =
      (⟨200, .todos (orderBy db.todos)⟩, db.issue .selectTodos) := by
  simp [GetTodos, GetFaults.none, DB.queryTodos, scanLoop_ok, DB.issue]

/-! ## Listing -/

/-- C5: when the read succeeds `GetTodos` answers 200 with a permutation of the stored
rows, sorted by importance descending with equal importances in ascending create_time;
for the empty table the listing is empty; the table is unchanged. -/
theorem getTodos_ordering (db : DB) :
    (GetTodos GetFaults.none db).1 = ⟨200, .todos (orderBy db.todos)⟩ ∧
      (orderBy db.todos).Perm db.todos ∧
      (orderBy db.todos).Pairwise
        (fun a b => b.Importance < a.Importance ∨
          (a.Importance = b.Importance ∧ a.CreateTime ≤ b.CreateTime)) ∧
      (db.todos = [] → (GetTodos GetFaults.none db).1 = ⟨200, .todos []⟩) ∧
      (GetTodos GetFaults.none db).2.todos = db.todos := by
  have h := GetTodos_ok db
  refine ⟨by rw [h], orderBy_perm _, orderBy_sorted _, ?_, by rw [h]; rfl⟩
  intro he
  rw [h, he]
  rfl

/-- Witness for C5: the listing of the empty table is empty. -/
theorem getTodos_ordering_witness :
    (GetTodos GetFaults.none ⟨[], 1, []⟩).1 = ⟨200, .todos []⟩ :=
  (getTodos_ordering ⟨[], 1, []⟩).2.2.2.1 rfl

/-- C4: for a duplicate-free sequence of ids that all exist in a table with unique ids, a
successful `ReorderTodos` followed by `GetTodos` lists those ids in exactly the order of
the sequence, interleaved with the other rows only; when the sequence covers every row the
listing is the sequence. -/
theorem reorder_then_list (now : Time) (ids : List Int) (db : DB)
    (hd : ids.Nodup) (hex : ∀ id ∈ ids, ∃ t ∈ db.todos, t.ID = id)
    (hu : (db.todos.map Todo.ID).Nodup) :
    (ReorderTodos ReorderFaults.none now ⟨some ids⟩ db).1.status = 200 ∧
      ∃ l, (GetTodos GetFaults.none (ReorderTodos ReorderFaults.none now ⟨some ids⟩ db).2).1 =
          ⟨200, .todos l⟩ ∧
        (l.map Todo.ID).filter (fun id => decide (id ∈ ids)) = ids ∧
        ((∀ t ∈ db.todos, t.ID ∈ ids) → l.map Todo.ID = ids) := by
  rw [ReorderTodos_ok]
  refine ⟨rfl, orderBy (db.todos.map (reorderRow now ids.length 0 ids)), ?_, ?_⟩
  · rw [GetTodos_ok]
  have hid : (db.todos.map (reorderRow now ids.length 0 ids)).map Todo.ID =
      db.todos.map Todo.ID := by
    rw [List.map_map]
    exact List.map_congr_left fun t _ => (reorderRow_frame now ids.length ids 0 t).1
  have hpm : ((orderBy (db.todos.map (reorderRow now ids.length 0 ids))).map Todo.ID).Perm
      (db.todos.map Todo.ID) := by
    rw [← hid]
    exact (orderBy_perm _).map _
  have key := listing_follows_sequence ids
    (orderBy (db.todos.map (reorderRow now ids.length 0 ids))) ids.length hd
    (hpm.nodup_iff.2 hu)
    (fun id h => by
      obtain ⟨t, ht, e⟩ := hex id h
      exact hpm.mem_iff.2 (List.mem_map.2 ⟨t, ht, e⟩))
    (fun t ht i hi e => by
      have ht2 := (orderBy_perm _).mem_iff.1 ht
      obtain ⟨t0, _, rfl⟩ := List.mem_map.1 ht2
      rw [(reorderRow_frame now ids.length ids 0 t0).1] at e
      have := reorderRow_last now ids.length ids 0 i t0 hi e
        (by rw [← e]; exact nodup_get_not_mem_drop ids i hi hd)
      simpa using this)
    (orderBy_sorted _)
  refine ⟨key, ?_⟩
  intro hall
  have hself : ((orderBy (db.todos.map (reorderRow now ids.length 0 ids))).map Todo.ID).filter
      (fun id => decide (id ∈ ids)) =
      (orderBy (db.todos.map (reorderRow now ids.length 0 ids))).map Todo.ID := by
    rw [List.filter_eq_self]
    intro a ha
    have := hpm.mem_iff.1 ha
    obtain ⟨t, ht, rfl⟩ := List.mem_map.1 this
    simpa using hall t ht
  rw [← hself]
  exact key

/-- Witness for C4: `reorder [3, 1, 2]` on the rows 1, 2, 3 sets their importance to
2, 1, 3 and the listing shows the ids in the order 3, 1, 2. -/
theorem reorder_then_list_witness :
    (ReorderTodos ReorderFaults.none 9 ⟨some [3, 1, 2]⟩
        ⟨[⟨1, "a", "2024-01-01", 5, false, 0, 0⟩, ⟨2, "b", "2024-01-02", 7, false, 0, 0⟩,
          ⟨3, "c", "2024-01-03", 1, false, 0, 0⟩], 4, []⟩).2.todos =
        [⟨1, "a", "2024-01-01", 2, false, 0, 9⟩, ⟨2, "b", "2024-01-02", 1, false, 0, 9⟩,
          ⟨3, "c", "2024-01-03", 3, false, 0, 9⟩] ∧
      (GetTodos GetFaults.none (ReorderTodos ReorderFaults.none 9 ⟨some [3, 1, 2]⟩
        ⟨[⟨1, "a", "2024-01-01", 5, false, 0, 0⟩, ⟨2, "b", "2024-01-02", 7, false, 0, 0⟩,
          ⟨3, "c", "2024-01-03", 1, false, 0, 0⟩], 4, []⟩).2).1 =
        ⟨200, .todos [⟨3, "c", "2024-01-03", 3, false, 0, 9⟩,
          ⟨1, "a", "2024-01-01", 2, false, 0, 9⟩, ⟨2, "b", "2024-01-02", 1, false, 0, 9⟩]⟩ ∧
      (ReorderTodos ReorderFaults.none 9 ⟨some [3, 1, 2]⟩
        ⟨[⟨1, "a", "2024-01-01", 5, false, 0, 0⟩, ⟨2, "b", "2024-01-02", 7, false, 0, 0⟩,
          ⟨3, "c", "2024-01-03", 1, false, 0, 0⟩], 4, []⟩).1.status = 200 :=
  ⟨by decide, by decide,
    (reorder_then_list 9 [3, 1, 2]
      ⟨[⟨1, "a", "2024-01-01", 5, false, 0, 0⟩, ⟨2, "b", "2024-01-02", 7, false, 0, 0⟩,
        ⟨3, "c", "2024-01-03", 1, false, 0, 0⟩], 4, []⟩
      (by decide) (by decide) (by decide)).1⟩

/-! ## Create -/

/-- C3, amended: for a valid create request and no storage error exactly one row is
appended, with flag false; a non-zero importance is stored as supplied; an absent or zero
importance is replaced by (maximum importance over the existing rows) + 1, which is 1 on
the empty table, provided that sum is representable as a Go `int`, that is, lies between
-2^63 and 2^63 - 1. -/
theorem createTodo_importance (now : Time) (today : String) (req : CreateTodoRequest)
    (db : DB) (hv : req.bind = none)
    (hr : req.Importance = 0 →
      intMin ≤ maxImportance db.todos + 1 ∧ maxImportance db.todos + 1 ≤ intMax) :
    ∃ t, (CreateTodo ⟨false, false⟩ now today req db).1 = ⟨201, .todo t⟩ ∧
      (CreateTodo ⟨false, false⟩ now today req db).2.todos = db.todos ++ [t] ∧
      t.Flag = false ∧ t.Name = req.Name ∧
      (req.Importance = 0 → t.Importance = maxImportance db.todos + 1) ∧
      (req.Importance ≠ 0 → t.Importance = req.Importance) ∧
      (db.todos = [] → maxImportance db.todos = 0) ∧
      (∀ r ∈ db.todos, r.Importance ≤ maxImportance db.todos) ∧
      (db.todos ≠ [] → ∃ r ∈ db.todos, r.Importance = maxImportance db.todos) := by
  refine ⟨Todo.mk db.nextID req.Name (if req.CreateTime = "" then today else req.CreateTime)
      (if req.Importance = 0 then wrapInt (maxImportance db.todos + 1) else req.Importance)
      false now now,
    ?_, ?_, ?_, ?_, ?_, ?_, ?_, maxImportance_ge _, maxImportance_attained _⟩
  · simp only [CreateTodo, hv, DB.queryMaxImportance, DB.insertTodo, DB.issue,
      Bool.false_eq_true, if_false]
  · simp only [CreateTodo, hv, DB.queryMaxImportance, DB.insertTodo, DB.issue,
      Bool.false_eq_true, if_false]
  · rfl
  · rfl
  · intro h0
    obtain ⟨h1, h2⟩ := hr h0
    simp only [h0, if_true]
    exact wrapInt_of_fits _ h1 h2
  · intro h0
    simp only [h0, if_false]
  · intro he
    rw [he]
    rfl

/-- Witness for C3: a create without importance on a table whose largest importance
is 7. -/
theorem createTodo_importance_witness :
    ∃ t, (CreateTodo ⟨false, false⟩ 9 "2024-02-02" ⟨"Buy milk", "", 0⟩
        ⟨[⟨1, "a", "2024-01-01", 5, false, 0, 0⟩, ⟨2, "b", "2024-01-02", 7, false, 0, 0⟩],
          3, []⟩).1 = ⟨201, .todo t⟩ ∧ t.Importance = 8 ∧ t.Flag = false := by
  obtain ⟨t, h1, _, h3, _, h5, _⟩ :=
    createTodo_importance 9 "2024-02-02" ⟨"Buy milk", "", 0⟩
      ⟨[⟨1, "a", "2024-01-01", 5, false, 0, 0⟩, ⟨2, "b", "2024-01-02", 7, false, 0, 0⟩],
        3, []⟩ (by decide) (fun _ => by decide)
  exact ⟨t, h1, (h5 rfl).trans (by decide), h3⟩

/-- C3 as stated fails at the largest Go `int`: with a stored importance of 2^63 - 1 a
create without importance inserts importance -2^63, not the maximum plus one. -/
theorem createTodo_importance_wraps :
    (CreateTodo ⟨false, false⟩ 9 "2024-02-02" ⟨"Buy milk", "", 0⟩
        ⟨[⟨1, "a", "2024-01-01", 9223372036854775807, false, 0, 0⟩], 2, []⟩).1 =
        ⟨201, .todo ⟨2, "Buy milk", "2024-02-02", -9223372036854775808, false, 9, 9⟩⟩ ∧
      (-9223372036854775808 : Int) ≠
        maxImportance [⟨1, "a", "2024-01-01", 9223372036854775807, false, 0, 0⟩] + 1 := by
  decide

/-- C9: a create request whose name is missing or empty, or longer than 500 characters, is
answered 400 with the database untouched (no statement sent, no row inserted); a name of
1 to 500 characters passes validation and the answer is not 400. -/
theorem createTodo_name_validation (f : CreateFaults) (now : Time) (today : String)
    (req : CreateTodoRequest) (db : DB) :
    ((req.Name = "" ∨ 500 < req.Name.length) →
        (CreateTodo f now today req db).1.status = 400 ∧
        (CreateTodo f now today req db).2 = db) ∧
      ((1 ≤ req.Name.length ∧ req.Name.length ≤ 500) →
        req.bind = none ∧ (CreateTodo f now today req db).1.status ≠ 400 ∧
        (CreateTodo f now today req db).2.log ≠ db.log) := by
  constructor
  · intro h
    have hb : ∃ e, req.bind = some e := by
      unfold CreateTodoRequest.bind
      rcases h with h | h
      · rw [h]; exact ⟨.required "Name", rfl⟩
      · by_cases h0 : req.Name.length = 0
        · omega
        · exact ⟨.max "Name", by simp [h0, h]⟩
    obtain ⟨e, he⟩ := hb
    simp [CreateTodo, he]
  · rintro ⟨h1, h2⟩
    have hb : req.bind = none := by
      unfold CreateTodoRequest.bind
      have : ¬ req.Name.length = 0 := by omega
      have : ¬ 500 < req.Name.length := by omega
      simp [*]
    refine ⟨hb, ?_, ?_⟩ <;>
    · obtain ⟨fm, fi⟩ := f
      cases fm <;> cases fi <;>
        simp [CreateTodo, hb, DB.queryMaxImportance, DB.insertTodo, DB.issue]

/-- Witness for C9: the empty name is rejected, the name `Buy milk` is not. -/
theorem createTodo_name_validation_witness :
    ((CreateTodo ⟨false, false⟩ 9 "2024-02-02" ⟨"", "", 0⟩ ⟨[], 1, []⟩).1.status = 400 ∧
        (CreateTodo ⟨false, false⟩ 9 "2024-02-02" ⟨"", "", 0⟩ ⟨[], 1, []⟩).2 = ⟨[], 1, []⟩) ∧
      (CreateTodo ⟨false, false⟩ 9 "2024-02-02" ⟨"Buy milk", "", 0⟩ ⟨[], 1, []⟩).1.status
        ≠ 400 :=
  ⟨(createTodo_name_validation ⟨false, false⟩ 9 "2024-02-02" ⟨"", "", 0⟩ ⟨[], 1, []⟩).1
      (Or.inl rfl),
    ((createTodo_name_validation ⟨false, false⟩ 9 "2024-02-02" ⟨"Buy milk", "", 0⟩
      ⟨[], 1, []⟩).2 (by decide)).2.1⟩

/-! ## Update and delete -/

/-- C6: the statement `UpdateTodo` builds assigns the supplied fields in the order name,
create_time, importance, flag, the j-th to placeholder `$j` with the j-th argument its
value, and binds the id last, to placeholder `$(|S|+1)`; for an existing id and no
storage fault the answer is 200 with the row carrying the supplied values, its id,
created_at and unsupplied fields kept and updated_at set to the clock, and every row with
another id is unchanged. -/
theorem updateTodo_touches_supplied (now : Time) (idParam : String) (id : Int)
    (req : UpdateTodoRequest) (db : DB) (t0 : Todo)
    (hid : Atoi idParam = some id) (hne : req.supplied ≠ [])
    (hrow : db.todos.find? (fun t => decide (t.ID = id)) = some t0) :
    (UpdateTodo false now idParam req db).2.log =
        db.log ++ [Stmt.updateTodo
          (req.supplied.enum.map fun p => ⟨p.2.1, p.1 + 1⟩) (req.supplied.length + 1)
          (req.supplied.map Prod.snd ++ [.int id])] ∧
      (UpdateTodo false now idParam req db).1 =
        ⟨200, .todo
          { ID := t0.ID, Name := req.Name.getD t0.Name,
            CreateTime := req.CreateTime.getD t0.CreateTime,
            Importance := req.Importance.getD t0.Importance, Flag := req.Flag.getD t0.Flag,
            CreatedAt := t0.CreatedAt, UpdatedAt := now }⟩ ∧
      (UpdateTodo false now idParam req db).2.todos =
        db.todos.map (fun t => if t.ID = id then
          { ID := t.ID, Name := req.Name.getD t.Name,
            CreateTime := req.CreateTime.getD t.CreateTime,
            Importance := req.Importance.getD t.Importance, Flag := req.Flag.getD t.Flag,
            CreatedAt := t.CreatedAt, UpdatedAt := now }
          else t) := by
  obtain ⟨b1, b2, b3⟩ := buildUpdate_supplied req
  have hne2 : (buildUpdate req).setParts.length ≠ 0 := by
    rw [b1]
    simpa using hne
  rw [UpdateTodo_run now idParam id req db hid hne2, hrow]
  simp only [b1, b2, b3]
  exact ⟨trivial, rfl, rfl⟩

/-- Witness for C6: name and flag of row 2 are updated, importance and create_time stay. -/
theorem updateTodo_touches_supplied_witness :
    (UpdateTodo false 9 "2" ⟨some "B", none, none, some true⟩
        ⟨[⟨1, "a", "2024-01-01", 5, false, 0, 0⟩, ⟨2, "b", "2024-01-02", 7, false, 0, 0⟩],
          3, []⟩).2.log =
        [Stmt.updateTodo [⟨.name, 1⟩, ⟨.flag, 2⟩] 3 [.str "B", .bool true, .int 2]] ∧
      (UpdateTodo false 9 "2" ⟨some "B", none, none, some true⟩
        ⟨[⟨1, "a", "2024-01-01", 5, false, 0, 0⟩, ⟨2, "b", "2024-01-02", 7, false, 0, 0⟩],
          3, []⟩).1 = ⟨200, .todo ⟨2, "B", "2024-01-02", 7, true, 0, 9⟩⟩ ∧
      (UpdateTodo false 9 "2" ⟨some "B", none, none, some true⟩
        ⟨[⟨1, "a", "2024-01-01", 5, false, 0, 0⟩, ⟨2, "b", "2024-01-02", 7, false, 0, 0⟩],
          3, []⟩).2.todos =
        [⟨1, "a", "2024-01-01", 5, false, 0, 0⟩, ⟨2, "B", "2024-01-02", 7, true, 0, 9⟩] :=
  updateTodo_touches_supplied 9 "2" 2 ⟨some "B", none, none, some true⟩
    ⟨[⟨1, "a", "2024-01-01", 5, false, 0, 0⟩, ⟨2, "b", "2024-01-02", 7, false, 0, 0⟩], 3, []⟩
    ⟨2, "b", "2024-01-02", 7, false, 0, 0⟩ (by decide) (by decide) (by decide)

/-- C8: for an id that parses, an update request with none of name, create_time,
importance, flag is answered 400 `No fields to update` and the database is untouched (no
statement sent, no row changed); a request with at least one of them never gets that
answer. -/
theorem updateTodo_no_fields (fail : Bool) (now : Time) (idParam : String) (id : Int)
    (req : UpdateTodoRequest) (db : DB) (hid : Atoi idParam = some id) :
    ((req.Name = none ∧ req.CreateTime = none ∧ req.Importance = none ∧ req.Flag = none) →
        UpdateTodo fail now idParam req db = (⟨400, .error "No fields to update"⟩, db)) ∧
      (¬ (req.Name = none ∧ req.CreateTime = none ∧ req.Importance = none ∧
          req.Flag = none) →
        (UpdateTodo fail now idParam req db).1 ≠ ⟨400, .error "No fields to update"⟩) := by
  constructor
  · intro h
    have := (buildUpdate_empty_iff req).2 h
    simp [UpdateTodo, hid, this]
  · intro h
    have hne : ¬ (buildUpdate req).setParts.length = 0 := fun e =>
      h ((buildUpdate_empty_iff req).1 e)
    simp only [UpdateTodo, hid, hne, if_false]
    rcases hq : DB.queryUpdate fail now (buildUpdate req).setParts (buildUpdate req).argCount
      ((buildUpdate req).args ++ [.int id]) db with ⟨r, db1⟩
    rcases r with e | t
    · cases e <;> rw [hq] <;> simp
    · rw [hq]; simp

/-- Witness for C8: the empty update of row 1, and an update of its flag. -/
theorem updateTodo_no_fields_witness :
    UpdateTodo false 9 "1" ⟨none, none, none, none⟩
        ⟨[⟨1, "a", "2024-01-01", 5, false, 0, 0⟩], 2, []⟩ =
        (⟨400, .error "No fields to update"⟩, ⟨[⟨1, "a", "2024-01-01", 5, false, 0, 0⟩], 2, []⟩) ∧
      (UpdateTodo false 9 "1" ⟨none, none, none, some true⟩
        ⟨[⟨1, "a", "2024-01-01", 5, false, 0, 0⟩], 2, []⟩).1 ≠
        ⟨400, .error "No fields to update"⟩ :=
  ⟨(updateTodo_no_fields false 9 "1" 1 ⟨none, none, none, none⟩
      ⟨[⟨1, "a", "2024-01-01", 5, false, 0, 0⟩], 2, []⟩ (by decide)).1 (by decide),
    (updateTodo_no_fields false 9 "1" 1 ⟨none, none, none, some true⟩
      ⟨[⟨1, "a", "2024-01-01", 5, false, 0, 0⟩], 2, []⟩ (by decide)).2 (by decide)⟩

/-- C10: for an id that parses and no storage fault, `DeleteTodo` answers 404 exactly when
no row has the id and otherwise answers 200 and removes the rows with that id, leaving the
others as they were; `UpdateTodo` with at least one field supplied answers 404 exactly
when no row has the id; in both not-found cases the rows are unchanged. -/
theorem notFound_update_delete (now : Time) (idParam : String) (id : Int)
    (req : UpdateTodoRequest) (db : DB) (hid : Atoi idParam = some id) :
    (((DeleteTodo false idParam db).1.status = 404 ↔ ∀ t ∈ db.todos, t.ID ≠ id) ∧
      (DeleteTodo false idParam db).2.todos = db.todos.filter (fun t => decide (t.ID ≠ id)) ∧
      ((∃ t ∈ db.todos, t.ID = id) →
        (DeleteTodo false idParam db).1 = ⟨200, .message "Todo deleted successfully"⟩) ∧
      ((∀ t ∈ db.todos, t.ID ≠ id) →
        (DeleteTodo false idParam db).1 = ⟨404, .error "Todo not found"⟩ ∧
        (DeleteTodo false idParam db).2.todos = db.todos)) ∧
    (¬ (req.Name = none ∧ req.CreateTime = none ∧ req.Importance = none ∧ req.Flag = none) →
      ((UpdateTodo false now idParam req db).1.status = 404 ↔ ∀ t ∈ db.todos, t.ID ≠ id) ∧
      ((∀ t ∈ db.todos, t.ID ≠ id) →
        (UpdateTodo false now idParam req db).1 = ⟨404, .error "Todo not found"⟩ ∧
        (UpdateTodo false now idParam req db).2.todos = db.todos)) := by
  have hlen : (db.todos.filter (fun t => decide (t.ID = id))).length = 0 ↔
      ∀ t ∈ db.todos, t.ID ≠ id := by
    rw [List.length_eq_zero, List.filter_eq_nil_iff]
    simp
  have hdel : DeleteTodo false idParam db =
      if (db.todos.filter (fun t => decide (t.ID = id))).length = 0 then
        (⟨404, .error "Todo not found"⟩,
          { todos := db.todos.filter (fun t => decide (t.ID ≠ id)), nextID := db.nextID,
            log := db.log ++ [Stmt.deleteTodo id] })
      else
        (⟨200, .message "Todo deleted successfully"⟩,
          { todos := db.todos.filter (fun t => decide (t.ID ≠ id)), nextID := db.nextID,
            log := db.log ++ [Stmt.deleteTodo id] }) := by
    simp only [DeleteTodo, hid, DB.execDelete, DB.issue, Bool.false_eq_true, if_false]
  refine ⟨⟨?_, ?_, ?_, ?_⟩, ?_⟩
  · rw [hdel, ← hlen]
    by_cases h0 : (db.todos.filter (fun t => decide (t.ID = id))).length = 0
    · simp [h0]
    · simp [h0]
  · rw [hdel]
    split <;> rfl
  · rintro ⟨t, ht, e⟩
    have hn : ¬ (db.todos.filter (fun t => decide (t.ID = id))).length = 0 := fun h0 =>
      hlen.1 h0 t ht e
    rw [hdel, if_neg hn]
  · intro hno
    rw [hdel, if_pos (hlen.2 hno)]
    refine ⟨rfl, ?_⟩
    show db.todos.filter (fun t => decide (t.ID ≠ id)) = db.todos
    rw [List.filter_eq_self]
    intro t ht
    simpa using hno t ht
  · intro hsome
    have hne : (buildUpdate req).setParts.length ≠ 0 := fun e =>
      hsome ((buildUpdate_empty_iff req).1 e)
    rw [UpdateTodo_run now idParam id req db hid hne]
    constructor
    · rw [← find_none_iff]
      cases db.todos.find? (fun t => decide (t.ID = id)) <;> simp
    · intro hno
      rw [(find_none_iff id db.todos).2 hno]
      exact ⟨rfl, updateWhere_none id _ db.todos hno⟩

/-- Witness for C10: on a table holding the rows 1 and 2, id 7 is not found by delete and
update, and deleting id 2 leaves row 1. -/
theorem notFound_update_delete_witness :
    (DeleteTodo false "7" ⟨[⟨1, "a", "2024-01-01", 5, false, 0, 0⟩,
        ⟨2, "b", "2024-01-02", 7, false, 0, 0⟩], 3, []⟩).1 =
        ⟨404, .error "Todo not found"⟩ ∧
      (UpdateTodo false 9 "7" ⟨none, none, none, some true⟩
        ⟨[⟨1, "a", "2024-01-01", 5, false, 0, 0⟩, ⟨2, "b", "2024-01-02", 7, false, 0, 0⟩],
          3, []⟩).1 = ⟨404, .error "Todo not found"⟩ ∧
      (DeleteTodo false "2" ⟨[⟨1, "a", "2024-01-01", 5, false, 0, 0⟩,
        ⟨2, "b", "2024-01-02", 7, false, 0, 0⟩], 3, []⟩).1 =
        ⟨200, .message "Todo deleted successfully"⟩ :=
  ⟨((notFound_update_delete 9 "7" 7 ⟨none, none, none, some true⟩
      ⟨[⟨1, "a", "2024-01-01", 5, false, 0, 0⟩, ⟨2, "b", "2024-01-02", 7, false, 0, 0⟩], 3, []⟩
      (by decide)).1.2.2.2 (by decide)).1,
    (((notFound_update_delete 9 "7" 7 ⟨none, none, none, some true⟩
      ⟨[⟨1, "a", "2024-01-01", 5, false, 0, 0⟩, ⟨2, "b", "2024-01-02", 7, false, 0, 0⟩], 3, []⟩
      (by decide)).2 (by decide)).2 (by decide)).1,
    (notFound_update_delete 9 "2" 2 ⟨none, none, none, some true⟩
      ⟨[⟨1, "a", "2024-01-01", 5, false, 0, 0⟩, ⟨2, "b", "2024-01-02", 7, false, 0, 0⟩], 3, []⟩
      (by decide)).1.2.2.1 (by decide)⟩

end TodoApp
